import Mathlib

/-
Verification of the slo-reporter SLI pipeline (src/app.py and
src/thoth/slo_reporter/sli_apis/sli_user_api.py) via a shallow embedding.

Python floats are modelled as rationals extended with a distinct NaN value
(PyFloat); NaN comparison and propagation semantics follow IEEE as Python
exposes them: any comparison involving NaN is false, except inequality
which is true; arithmetic on NaN yields NaN.  The sentinel string
"ErrorMetricRetrieval" is modelled by the constructor RawSample.err.
-/

/-- Python float value: a finite rational or the floating NaN. -/
inductive PyFloat where
| num (q : ℚ)
| nan
deriving DecidableEq

/-- Python inequality x != y on floats: true whenever either side is NaN
(in particular nan != nan is True), otherwise rational disequality. -/
def pyNe : PyFloat → PyFloat → Bool
| PyFloat.nan, _ => true
| _, PyFloat.nan => true
| PyFloat.num a, PyFloat.num b => decide (a ≠ b)

/-- Python strict greater-than: false whenever either side is NaN. -/
def pyGt : PyFloat → PyFloat → Bool
| PyFloat.num a, PyFloat.num b => decide (b < a)
| _, _ => false

/-- Python strict less-than: false whenever either side is NaN. -/
def pyLt : PyFloat → PyFloat → Bool
| PyFloat.num a, PyFloat.num b => decide (a < b)
| _, _ => false

/-- Python subtraction with NaN propagation. -/
def pySub : PyFloat → PyFloat → PyFloat
| PyFloat.num a, PyFloat.num b => PyFloat.num (a - b)
| _, _ => PyFloat.nan

/-- Python multiplication with NaN propagation. -/
def pyMul : PyFloat → PyFloat → PyFloat
| PyFloat.num a, PyFloat.num b => PyFloat.num (a * b)
| _, _ => PyFloat.nan

/-- Python division with NaN propagation.  The program only divides under a
positive-denominator guard, so the zero-denominator case is never reached;
it is mapped to NaN here. -/
def pyDiv : PyFloat → PyFloat → PyFloat
| PyFloat.num a, PyFloat.num b => if b = 0 then PyFloat.nan else PyFloat.num (a / b)
| _, _ => PyFloat.nan

/-- Python abs with NaN propagation. -/
def pyAbs : PyFloat → PyFloat
| PyFloat.num a => PyFloat.num |a|
| PyFloat.nan => PyFloat.nan

/-- Round to the nearest integer, ties to even: the rounding Python uses
for round(x, n) and for fixed-point formatting. -/
def roundHalfEven (q : ℚ) : ℤ :=
  if q - ⌊q⌋ < 1/2 then ⌊q⌋
  else if 1/2 < q - ⌊q⌋ then ⌊q⌋ + 1
  else if ⌊q⌋ % 2 = 0 then ⌊q⌋ else ⌊q⌋ + 1

/-- Round a rational to 3 decimal digits, ties to even. -/
def round3 (q : ℚ) : ℚ := (roundHalfEven (q * 1000) : ℚ) / 1000

/-- Python round(x, 3) with NaN propagation. -/
def pyRound3 : PyFloat → PyFloat
| PyFloat.num q => PyFloat.num (round3 q)
| PyFloat.nan => PyFloat.nan

/-- Left-pad the fractional part to exactly three digits. -/
def pad3 (n : ℕ) : String :=
  if n < 10 then "00" ++ toString n
  else if n < 100 then "0" ++ toString n
  else toString n

/-- Fixed-point rendering of a rational with 3 decimal digits, as the
Python format specification .3f renders a float: an explicit minus sign
for negative inputs, then the rounded magnitude. -/
def formatFixed3 (q : ℚ) : String :=
  (if q < 0 then "-" else "") ++
    toString ((roundHalfEven (|q| * 1000)).toNat / 1000) ++ "." ++
    pad3 ((roundHalfEven (|q| * 1000)).toNat % 1000)

/-- Fixed-point rendering lifted to PyFloat; formatting NaN gives "nan". -/
def pyFormatFixed3 : PyFloat → String
| PyFloat.num q => formatFixed3 q
| PyFloat.nan => "nan"

/-- Result of one query execution: a finite value, or the sentinel string
"ErrorMetricRetrieval" assigned in collect_metrics when a query fails
(src/app.py line 124). -/
inductive RawSample where
| val (x : ℚ)
| err
deriving DecidableEq

/-- Conversion performed at sli_user_api.py lines 115-118: a raw sample is
kept as a float and the sentinel becomes np.nan. -/
def rawToPy : RawSample → PyFloat
| RawSample.val x => PyFloat.num x
| RawSample.err => PyFloat.nan

/-- Input dictionary of _evaluate_sli: one raw sample per declared query
key of the user_api indicator (sli_user_api.py lines 87-99). -/
structure SliInput where
  avg_total_request : RawSample
  avg_successfull_request : RawSample
  avg_up_time : RawSample
deriving DecidableEq

/-- Entry of the static measurement-unit table _USER_API_MEASUREMENT_UNIT
(sli_user_api.py lines 42-49). -/
structure MeasurementUnitEntry where
  name : String
  measurement_unit : String
  quantities : List String
deriving DecidableEq

/-- The static table _USER_API_MEASUREMENT_UNIT, in insertion order. -/
def USER_API_MEASUREMENT_UNIT : List (String × MeasurementUnitEntry) :=
  [("avg_percentage_successfull_request",
    { name := "Successfull requests User-API (avg)"
      measurement_unit := "%"
      quantities := ["avg_total_request", "avg_successfull_request"] }),
   ("avg_up_time",
    { name := "Uptime User-API (avg)"
      measurement_unit := "%"
      quantities := [] })]

/-- sli_columns (sli_user_api.py line 57): the keys of the static table. -/
def sli_columns : List String := USER_API_MEASUREMENT_UNIT.map Prod.fst

/-- One output entry of _evaluate_sli: the value plus the name and
measurement_unit fields copied from the static table (lines 136-137). -/
structure QuantityOut where
  value : PyFloat
  name : String
  measurement_unit : String
deriving DecidableEq

/-- Branch of _evaluate_sli for avg_percentage_successfull_request
(sli_user_api.py lines 112-128): build the results dictionary mapping the
two underlying quantities to their float value or np.nan, test
all(single_quantity != np.nan ...), and inside that branch divide under
the positive-denominator guard, else take 0; finally abs(round(.*100,3)).
The NaN test is kept exactly as written in the source. -/
def ratioValue (sli : SliInput) : PyFloat :=
  let results_total := rawToPy sli.avg_total_request
  let results_succ := rawToPy sli.avg_successfull_request
  if pyNe results_total PyFloat.nan && pyNe results_succ PyFloat.nan then
    let percentage :=
      if pyGt results_total (PyFloat.num 0) then pyDiv results_succ results_total
      else PyFloat.num 0
    pyAbs (pyRound3 (pyMul percentage (PyFloat.num 100)))
  else
    PyFloat.nan

/-- Branch of _evaluate_sli for avg_up_time (sli_user_api.py lines
130-134): abs(round(sli*100, 3)) when the sample is not the sentinel,
np.nan otherwise. -/
def uptimeValue (sli : SliInput) : PyFloat :=
  match sli.avg_up_time with
  | RawSample.val x => pyAbs (pyRound3 (pyMul (PyFloat.num x) (PyFloat.num 100)))
  | RawSample.err => PyFloat.nan

/-- Embedding of _evaluate_sli (sli_user_api.py lines 101-139): the loop
over the two static table keys, unrolled in insertion order. -/
def evaluate_sli (sli : SliInput) : List (String × QuantityOut) :=
  [("avg_percentage_successfull_request",
    { value := ratioValue sli
      name := "Successfull requests User-API (avg)"
      measurement_unit := "%" }),
   ("avg_up_time",
    { value := uptimeValue sli
      name := "Uptime User-API (avg)"
      measurement_unit := "%" })]

/-- Python x != np.nan is true for every float x, because nan is unequal
to everything including itself.  This makes the guard at sli_user_api.py
line 120 vacuous. -/
theorem pyNe_nan_right (x : PyFloat) : pyNe x PyFloat.nan = true := by
  cases x <;> rfl

theorem round3_zero : round3 0 = 0 := by
  unfold round3 roundHalfEven
  norm_num

theorem roundHalfEven_intCast (n : ℤ) : roundHalfEven (n:ℚ) = n := by
  unfold roundHalfEven
  norm_num

theorem round3_intCast (n : ℤ) : round3 (n:ℚ) = (n:ℚ) := by
  unfold round3
  rw [show ((n:ℚ) * 1000) = (((n*1000 : ℤ)):ℚ) by push_cast; ring, roundHalfEven_intCast]
  push_cast
  ring

/-- Value stored into the change field by _report_sli: either a formatted
string or the bare numeric diff (the code stores the number itself when
the diff is neither positive nor negative). -/
inductive ChangeField where
| str (s : String)
| num (v : PyFloat)
deriving DecidableEq

/-- Embedding of the per-column diff block of _report_sli
(sli_user_api.py lines 152-159): diff = current value minus the prior
snapshot value; a positive diff is stored as the literal plus sign glued
to the 3-decimal rendering, a negative diff as the literal minus sign
glued to the 3-decimal rendering (which itself already renders the minus
sign of a negative number), anything else as the bare diff. -/
def reportChange (current prior : PyFloat) : ChangeField :=
  if pyGt (pySub current prior) (PyFloat.num 0) then
    ChangeField.str ("+" ++ pyFormatFixed3 (pySub current prior))
  else if pyLt (pySub current prior) (PyFloat.num 0) then
    ChangeField.str ("-" ++ pyFormatFixed3 (pySub current prior))
  else
    ChangeField.num (pySub current prior)

/-- Outcome of reading the prior snapshot.  Modelled from the spec: the
helper retrieve_thoth_sli_from_ceph is not under src; the spec interface
for SnapshotStore says a read of a nonexistent key is a distinguished
not-found outcome and a malformed payload is an error. -/
inductive RetrievalError where
| notFound
| unreadable
deriving DecidableEq

/-- Prior-week row for the two sli columns, as read back by pd.read_csv
in _report_sli (sli_user_api.py lines 148-150). -/
structure PriorRow where
  avg_percentage_successfull_request : PyFloat
  avg_up_time : PyFloat
deriving DecidableEq

/-- One quantity of the final report: evaluator output plus the change
field filled by the diff block. -/
structure ReportedQuantity where
  value : PyFloat
  name : String
  measurement_unit : String
  change : ChangeField
deriving DecidableEq

/-- Embedding of _report_sli (sli_user_api.py lines 141-162): evaluate
the SLI, read the prior snapshot, and fill the change field per column.
The function body contains no exception handler, so a failing retrieval
propagates out of the function; this is mirrored by returning the
retrieval error unchanged. -/
def report_sli (sli : SliInput) (prior : Except RetrievalError PriorRow) :
    Except RetrievalError (List (String × ReportedQuantity)) :=
  match prior with
  | Except.error e => Except.error e
  | Except.ok last_week_data =>
    Except.ok
      [("avg_percentage_successfull_request",
        { value := ratioValue sli
          name := "Successfull requests User-API (avg)"
          measurement_unit := "%"
          change := reportChange (ratioValue sli)
            last_week_data.avg_percentage_successfull_request }),
       ("avg_up_time",
        { value := uptimeValue sli
          name := "Uptime User-API (avg)"
          measurement_unit := "%"
          change := reportChange (uptimeValue sli) last_week_data.avg_up_time })]

/-- Reduction actions used by the user_api range queries. -/
inductive ActionType where
| average
| sum
deriving DecidableEq

/-- Modelled from the spec: the helper manipulate_retrieved_metrics_vector
(thoth/slo_reporter/utils.py) is not under src.  The spec states that the
configured reduction (average, sum, ...) is applied to the filtered
vector and that an empty filtered vector still yields the defined numeric
result 0 rather than failing. -/
def manipulate_retrieved_metrics_vector (metrics_vector : List ℚ) (action : ActionType) : ℚ :=
  match action with
  | ActionType.average =>
      if metrics_vector.length = 0 then 0 else metrics_vector.sum / metrics_vector.length
  | ActionType.sum => metrics_vector.sum

/-- The list comprehension of src/app.py line 108: keep a range sample v
exactly when v > 0. -/
def metricsVector (values : List ℚ) : List ℚ := values.filter (fun v => 0 < v)

/-- Combined range handling of src/app.py lines 107-109: filter to
strictly positive samples, then apply the configured reduction. -/
def rangeResult (values : List ℚ) (action : ActionType) : ℚ :=
  manipulate_retrieved_metrics_vector (metricsVector values) action

/-- One declared query of an indicator (src/app.py lines 77-86): either a
range query with a reduction action or a plain point query. -/
inductive QueryInput where
| range (query : String) (action : ActionType)
| point (query : String)
deriving DecidableEq

/-- The metric source consumed by collect_metrics: each call either
returns data or raises, which the Except error stands for.  The error
case also covers an empty or malformed raw result, since the indexing of
metric_data inside the try block raises on those too. -/
structure MetricSource where
  queryRange : String → Except Unit (List ℚ)
  query : String → Except Unit ℚ

/-- Whether the metric source raises while executing the given query. -/
def sourceRaises (src : MetricSource) : QueryInput → Bool
| QueryInput.range q _ =>
  match src.queryRange q with
  | Except.error _ => true
  | Except.ok _ => false
| QueryInput.point q =>
  match src.query q with
  | Except.error _ => true
  | Except.ok _ => false

/-- Per-query body of collect_metrics (src/app.py lines 91-124): the try
block computes the reduced or point value, and the except block converts
any exception into the sentinel for that query alone. -/
def collectQuery (src : MetricSource) : QueryInput → RawSample
| QueryInput.range q act =>
  match src.queryRange q with
  | Except.error _ => RawSample.err
  | Except.ok vs => RawSample.val (rangeResult vs act)
| QueryInput.point q =>
  match src.query q with
  | Except.error _ => RawSample.err
  | Except.ok v => RawSample.val v

/-- Inner loop of collect_metrics over the queries of one indicator. -/
def collectQueries (src : MetricSource) (qs : List (String × QueryInput)) :
    List (String × RawSample) :=
  qs.map (fun q => (q.1, collectQuery src q.2))

/-- Embedding of collect_metrics (src/app.py lines 62-126): iterate every
registered indicator and every declared query, recording one raw sample
per query. -/
def collect_metrics (src : MetricSource)
    (report_sli_context : List (String × List (String × QueryInput))) :
    List (String × List (String × RawSample)) :=
  report_sli_context.map (fun p => (p.1, collectQueries src p.2))

/-- One iteration input of the persistence loop: the metric class and the
column list of the freshly computed row (the columns that json_normalize
produces from the df_method inputs, src/app.py lines 146-154). -/
structure StoreItem where
  metricClass : String
  computedColumns : List String
deriving DecidableEq

/-- Embedding of the loop of store_sli_periodic_metrics_to_ceph
(src/app.py lines 146-180): for each metric class compare the computed
column list against the declared schema; on mismatch raise (abort the
loop with an error and write nothing further), otherwise write the row
and continue.  The result is the list of written items plus the raised
error, if any. -/
def store_sli_periodic_metrics_to_ceph (schema : String → List String) :
    List StoreItem → List StoreItem × Option String
| [] => ([], none)
| item :: rest =>
  if item.computedColumns = schema item.metricClass then
    ((item :: (store_sli_periodic_metrics_to_ceph schema rest).1),
      (store_sli_periodic_metrics_to_ceph schema rest).2)
  else ([], some "SchemaMismatch")

/-- Embedding of push_thoth_sli_periodic_metrics (src/app.py lines
183-201): for every indicator and metric name, set a gauge to the
collected value unless the value equals the sentinel string; the result
is the list of gauge settings performed. -/
def push_thoth_sli_periodic_metrics :
    List (String × List (String × RawSample)) → List (String × String × ℚ)
| [] => []
| p :: rest =>
  (p.2.filterMap (fun q =>
    match q.2 with
    | RawSample.val x => some (p.1, q.1, x)
    | RawSample.err => none)) ++ push_thoth_sli_periodic_metrics rest

theorem formatFixed3_half : formatFixed3 (1/2) = "0.500" := by
  have h1 : roundHalfEven (|(1:ℚ)/2| * 1000) = ((500:ℤ)) := by
    have h : (|(1:ℚ)/2| * 1000) = ((500:ℤ):ℚ) := by
      rw [abs_of_nonneg (by norm_num : (0:ℚ) ≤ 1/2)]
      norm_num
    rw [h, roundHalfEven_intCast]
  have h2 : ¬ ((1:ℚ)/2 < 0) := by norm_num
  simp only [formatFixed3, h1, if_neg h2]
  rfl

theorem formatFixed3_neg_half : formatFixed3 (-1/2) = "-0.500" := by
  have h1 : roundHalfEven (|(-1:ℚ)/2| * 1000) = ((500:ℤ)) := by
    have h : (|(-1:ℚ)/2| * 1000) = ((500:ℤ):ℚ) := by
      rw [show |(-1:ℚ)/2| = 1/2 by rw [abs_of_nonpos (by norm_num)]; norm_num]
      norm_num
    rw [h, roundHalfEven_intCast]
  have h2 : ((-1:ℚ)/2 < 0) := by norm_num
  simp only [formatFixed3, h1, if_pos h2]
  rfl

/-- C10: for every input sample mapping over the three declared query
keys, _evaluate_sli returns exactly one entry per declared reportable
quantity, in table order, and every entry carries the name and
measurement_unit of the static measurement-unit table; the samples can
only influence the value field. -/
theorem evaluate_sli_static_shape (sli : SliInput) :
    (evaluate_sli sli).map (fun p => (p.1, p.2.name, p.2.measurement_unit)) =
      USER_API_MEASUREMENT_UNIT.map (fun p => (p.1, p.2.name, p.2.measurement_unit)) ∧
    (evaluate_sli sli).length = USER_API_MEASUREMENT_UNIT.length :=
  ⟨rfl, rfl⟩

/-- C1: evaluation of the code at the failing input.  With every
underlying query returning the sentinel, the derived ratio quantity
evaluates to 0, not NaN: the guard all(x != np.nan) at sli_user_api.py
line 120 is vacuously true (see pyNe_nan_right), so the NaN branch is
unreachable and nan > 0 being false selects the percentage = 0 path.
The claim, which matches the evident intent of that dead branch, is
violated by the code. -/
theorem evaluate_sli_unavailable_denominator_yields_zero :
    (evaluate_sli ⟨RawSample.err, RawSample.err, RawSample.val 1⟩).map
        (fun p => (p.1, p.2.value)) =
      [("avg_percentage_successfull_request", PyFloat.num 0),
       ("avg_up_time", PyFloat.num 100)] := by
  have h1 : round3 (100:ℚ) = 100 := by exact_mod_cast round3_intCast 100
  simp [evaluate_sli, ratioValue, uptimeValue, rawToPy, pyNe, pyGt, pyMul, pyRound3,
    pyAbs, round3_zero]
  norm_num [h1]

/-- C5: the ratio derivation guards the denominator: a zero total sample,
and likewise an unavailable total sample, makes the evaluated
avg_percentage_successfull_request value the number 0 — the division is
never executed, so no division fault can occur. -/
theorem ratio_denominator_guard (sli : SliInput)
    (h : sli.avg_total_request = RawSample.val 0 ∨ sli.avg_total_request = RawSample.err) :
    ratioValue sli = PyFloat.num 0 := by
  have hg : pyGt (rawToPy sli.avg_total_request) (PyFloat.num 0) = false := by
    rcases h with h | h <;> rw [h]
    · simp only [rawToPy, pyGt, decide_eq_false_iff_not]
      norm_num
    · simp [rawToPy, pyGt]
  simp [ratioValue, pyNe_nan_right, hg, pyMul, pyRound3, pyAbs, round3_zero]

theorem ratio_denominator_guard_witness :
    ratioValue ⟨RawSample.val 0, RawSample.val 0, RawSample.val 0⟩ = PyFloat.num 0 :=
  ratio_denominator_guard ⟨RawSample.val 0, RawSample.val 0, RawSample.val 0⟩ (Or.inl rfl)

/-- C4 (amended): _report_sli contains no exception handling, so when the
prior snapshot read fails — missing or unreadable — the error propagates
out of the diff step instead of leaving the change field undefined. -/
theorem report_sli_propagates_retrieval_error (sli : SliInput) (e : RetrievalError) :
    report_sli sli (Except.error e) = Except.error e := rfl

/-- C4 (counterexample): at a concrete input with a missing prior
snapshot, _report_sli raises (returns the error) rather than completing
with an undefined change field, refuting the claim as stated. -/
theorem report_sli_missing_snapshot_raises :
    report_sli ⟨RawSample.val 1, RawSample.val 1, RawSample.val 1⟩
        (Except.error RetrievalError.notFound) =
      Except.error RetrievalError.notFound := rfl

/-- C2: evaluation of the diff block at concrete inputs.  A positive
delta of 0.5 renders as the string with a single plus sign, and a zero
delta is stored as the bare numeric 0, as the claim states; but a
negative delta of -0.5 renders as a doubled minus sign, because the
source glues a minus sign in front of a formatting that already renders
the sign of the negative number. -/
theorem report_change_sign_rendering :
    reportChange (PyFloat.num 99) (PyFloat.num (197/2)) = ChangeField.str "+0.500" ∧
    reportChange (PyFloat.num 99) (PyFloat.num (199/2)) = ChangeField.str "--0.500" ∧
    reportChange (PyFloat.num 99) (PyFloat.num 99) = ChangeField.num (PyFloat.num 0) := by
  refine ⟨?_, ?_, ?_⟩
  · have hs : pySub (PyFloat.num 99) (PyFloat.num (197/2)) = PyFloat.num (1/2) := by
      simp only [pySub, PyFloat.num.injEq]
      norm_num
    have hg : pyGt (PyFloat.num ((1:ℚ)/2)) (PyFloat.num 0) = true := by
      simp only [pyGt, decide_eq_true_eq]
      norm_num
    simp only [reportChange, hs, hg, if_pos, pyFormatFixed3, formatFixed3_half]
    rfl
  · have hs : pySub (PyFloat.num 99) (PyFloat.num (199/2)) = PyFloat.num (-1/2) := by
      simp only [pySub, PyFloat.num.injEq]
      norm_num
    have hg : pyGt (PyFloat.num ((-1:ℚ)/2)) (PyFloat.num 0) = false := by
      simp only [pyGt, decide_eq_false_iff_not]
      norm_num
    have hl : pyLt (PyFloat.num ((-1:ℚ)/2)) (PyFloat.num 0) = true := by
      simp only [pyLt, decide_eq_true_eq]
      norm_num
    simp only [reportChange, hs, hg, hl, if_pos, if_neg, Bool.false_eq_true,
      not_false_eq_true, pyFormatFixed3, formatFixed3_neg_half]
    rfl
  · have hs : pySub (PyFloat.num 99) (PyFloat.num 99) = PyFloat.num 0 := by
      simp only [pySub, PyFloat.num.injEq]
      norm_num
    have hg : pyGt (PyFloat.num (0:ℚ)) (PyFloat.num 0) = false := by
      simp only [pyGt, decide_eq_false_iff_not]
      norm_num
    have hl : pyLt (PyFloat.num (0:ℚ)) (PyFloat.num 0) = false := by
      simp only [pyLt, decide_eq_false_iff_not]
      norm_num
    simp only [reportChange, hs, hg, hl, Bool.false_eq_true, if_neg, not_false_eq_true]

/-- C3: an exception raised by the metric source while executing one
query is converted into the sentinel for that single query only; every
other query of the same indicator and every other indicator is collected
exactly as it would be if the failing query did not exist. -/
theorem collect_metrics_isolates_failure (src : MetricSource)
    (pre post : List (String × List (String × QueryInput)))
    (s : String) (qpre qpost : List (String × QueryInput))
    (qn : String) (qi : QueryInput)
    (h : sourceRaises src qi = true) :
    collect_metrics src (pre ++ (s, qpre ++ (qn, qi) :: qpost) :: post) =
      collect_metrics src pre ++
        (s, collectQueries src qpre ++ (qn, RawSample.err) :: collectQueries src qpost) ::
          collect_metrics src post := by
  have hq : collectQuery src qi = RawSample.err := by
    cases qi with
    | range q act =>
      cases hqr : src.queryRange q with
      | error e => simp [collectQuery, hqr]
      | ok vs =>
        exfalso
        simp [sourceRaises, hqr] at h
    | point q =>
      cases hqr : src.query q with
      | error e => simp [collectQuery, hqr]
      | ok v =>
        exfalso
        simp [sourceRaises, hqr] at h
  simp [collect_metrics, collectQueries, hq]

def wSrc : MetricSource :=
  { queryRange := fun _ => Except.error ()
    query := fun _ => Except.ok 1 }

def wFailingQuery : QueryInput :=
  QueryInput.range "sum(flask_http_request_total)" ActionType.average

def wOtherQueries : List (String × QueryInput) :=
  [("avg_up_time", QueryInput.point "avg_over_time(up)")]

theorem collect_metrics_isolates_failure_witness :
    sourceRaises wSrc wFailingQuery = true ∧
    collect_metrics wSrc
        ([] ++ ("user_api", [] ++ ("avg_total_request", wFailingQuery) :: wOtherQueries) :: []) =
      collect_metrics wSrc [] ++
        ("user_api",
          collectQueries wSrc [] ++
            ("avg_total_request", RawSample.err) :: collectQueries wSrc wOtherQueries) ::
          collect_metrics wSrc [] :=
  ⟨rfl, collect_metrics_isolates_failure wSrc [] [] "user_api" [] wOtherQueries
    "avg_total_request" wFailingQuery rfl⟩

/-- C6: the persistence loop never writes a row whose column list differs
from the declared schema; when every computed row matches its declared
schema all writes proceed with no error; and any mismatched row — for
example one with an extra column appended — makes the loop raise the
schema-mismatch error. -/
theorem store_schema_guard (schema : String → List String) (items : List StoreItem) :
    (∀ it ∈ (store_sli_periodic_metrics_to_ceph schema items).1,
        it.computedColumns = schema it.metricClass) ∧
    ((∀ it ∈ items, it.computedColumns = schema it.metricClass) →
        store_sli_periodic_metrics_to_ceph schema items = (items, none)) ∧
    (∀ it ∈ items, it.computedColumns ≠ schema it.metricClass →
        (store_sli_periodic_metrics_to_ceph schema items).2 = some "SchemaMismatch") := by
  induction items with
  | nil => simp [store_sli_periodic_metrics_to_ceph]
  | cons a rest ih =>
    by_cases ha : a.computedColumns = schema a.metricClass
    · refine ⟨?_, ?_, ?_⟩
      · intro it hit
        simp only [store_sli_periodic_metrics_to_ceph, if_pos ha] at hit
        rcases (List.mem_cons).mp hit with rfl | hit
        · exact ha
        · exact ih.1 it hit
      · intro hall
        have hrest := ih.2.1 (fun it hit => hall it (List.mem_cons_of_mem _ hit))
        simp [store_sli_periodic_metrics_to_ceph, if_pos ha, hrest]
      · intro it hit hne
        rcases (List.mem_cons).mp hit with rfl | hit
        · exact absurd ha hne
        · have hr := ih.2.2 it hit hne
          simp [store_sli_periodic_metrics_to_ceph, if_pos ha, hr]
    · refine ⟨?_, ?_, ?_⟩
      · intro it hit
        simp [store_sli_periodic_metrics_to_ceph, if_neg ha] at hit
      · intro hall
        exact absurd (hall a (List.mem_cons_self a rest)) ha
      · intro it hit hne
        simp [store_sli_periodic_metrics_to_ceph, if_neg ha]

def wSchema : String → List String := fun _ => ["datetime", "timestamp"] ++ sli_columns

def wBadItem : StoreItem :=
  { metricClass := "user_api"
    computedColumns := (["datetime", "timestamp"] ++ sli_columns) ++ ["extra"] }

theorem store_schema_guard_witness :
    (store_sli_periodic_metrics_to_ceph wSchema [wBadItem]).2 = some "SchemaMismatch" :=
  (store_schema_guard wSchema [wBadItem]).2.2 wBadItem (List.mem_singleton.mpr rfl)
    (by simp [wBadItem, wSchema, sli_columns, USER_API_MEASUREMENT_UNIT])

/-- C8: a non-positive sample inserted anywhere in the returned series
does not change the collected range result: the series is filtered to
strictly positive values before the configured reduction is applied, so
non-positive samples never contribute to the reduced scalar. -/
theorem range_filter_drops_nonpositive (l1 l2 : List ℚ) (v : ℚ) (act : ActionType)
    (h : ¬ 0 < v) :
    rangeResult (l1 ++ v :: l2) act = rangeResult (l1 ++ l2) act := by
  have hm : metricsVector (l1 ++ v :: l2) = metricsVector (l1 ++ l2) := by
    simp [metricsVector, List.filter_append, List.filter_cons, h]
  simp [rangeResult, hm]

theorem range_filter_drops_nonpositive_witness :
    (¬ (0:ℚ) < 0) ∧
      rangeResult ([1] ++ 0 :: [2]) ActionType.average =
        rangeResult ([1] ++ [2]) ActionType.average :=
  ⟨by norm_num, range_filter_drops_nonpositive [1] [2] 0 ActionType.average (by norm_num)⟩

/-- C9: the publish step sets a gauge (indicator, metric name, value)
exactly for the collected entries whose value is a number; an entry equal
to the MetricUnavailable sentinel produces no gauge at all — in
particular it is never published as 0. -/
theorem push_gauge_mem_iff (pm : List (String × List (String × RawSample)))
    (s m : String) (x : ℚ) :
    (s, m, x) ∈ push_thoth_sli_periodic_metrics pm ↔
      ∃ md, (s, md) ∈ pm ∧ (m, RawSample.val x) ∈ md := by
  induction pm with
  | nil => simp [push_thoth_sli_periodic_metrics]
  | cons p rest ih =>
    obtain ⟨s1, md1⟩ := p
    simp only [push_thoth_sli_periodic_metrics, List.mem_append, ih, List.mem_cons]
    constructor
    · rintro (hmem | ⟨md, hmd, hm⟩)
      · rw [List.mem_filterMap] at hmem
        obtain ⟨⟨m1, v⟩, hq, hv⟩ := hmem
        cases v with
        | val x1 =>
          simp only [Option.some.injEq, Prod.mk.injEq] at hv
          obtain ⟨h1, h2, h3⟩ := hv
          subst h1
          subst h2
          subst h3
          exact ⟨md1, Or.inl rfl, hq⟩
        | err => simp at hv
      · exact ⟨md, Or.inr hmd, hm⟩
    · rintro ⟨md, hin | hmd, hm⟩
      · left
        obtain ⟨he1, he2⟩ := Prod.mk.injEq .. ▸ hin
        subst he1
        subst he2
        exact List.mem_filterMap.mpr ⟨(m, RawSample.val x), hm, rfl⟩
      · exact Or.inr ⟨md, hmd, hm⟩

theorem roundHalfEven_le (q : ℚ) (n : ℤ) (h : q ≤ (n:ℚ)) : roundHalfEven q ≤ n := by
  have hf : ⌊q⌋ ≤ n := by
    have h2 := Int.floor_le_floor h
    simpa using h2
  unfold roundHalfEven
  split
  · exact hf
  · rename_i h1
    have hr : (1:ℚ)/2 ≤ q - ⌊q⌋ := le_of_not_lt h1
    have hcast : (⌊q⌋:ℚ) < (n:ℚ) := by linarith
    have hlt : ⌊q⌋ < n := by exact_mod_cast hcast
    split
    · omega
    · split
      · omega
      · omega

theorem le_roundHalfEven (q : ℚ) (n : ℤ) (h : (n:ℚ) ≤ q) : n ≤ roundHalfEven q := by
  have hf : n ≤ ⌊q⌋ := Int.le_floor.mpr h
  unfold roundHalfEven
  split
  · exact hf
  · split
    · omega
    · split <;> omega

theorem round3_abs_le_100 (q : ℚ) (h : |q| ≤ 100) : |round3 q| ≤ 100 := by
  obtain ⟨h1, h2⟩ := abs_le.mp h
  have hu : roundHalfEven (q * 1000) ≤ (100000:ℤ) :=
    roundHalfEven_le _ _ (by push_cast; linarith)
  have hl : ((-100000:ℤ)) ≤ roundHalfEven (q * 1000) :=
    le_roundHalfEven _ _ (by push_cast; linarith)
  unfold round3
  rw [abs_le]
  constructor
  · have h3 : ((-100000:ℤ):ℚ) ≤ (roundHalfEven (q*1000) : ℚ) := by exact_mod_cast hl
    push_cast at h3 ⊢
    linarith
  · have h3 : (roundHalfEven (q*1000) : ℚ) ≤ ((100000:ℤ):ℚ) := by exact_mod_cast hu
    push_cast at h3 ⊢
    linarith

/-- Input restriction under which the ratio quantity stays within the
0-100 scale: a numeric success sample must not exceed a positive numeric
total sample in magnitude. -/
def ratioInputOk (sli : SliInput) : Bool :=
  match sli.avg_total_request, sli.avg_successfull_request with
  | RawSample.val t, RawSample.val s => decide (0 < t → |s| ≤ t)
  | _, _ => true

/-- Input restriction under which the up-time quantity stays within the
0-100 scale: a numeric up-time sample has magnitude at most 1. -/
def uptimeInputOk (sli : SliInput) : Bool :=
  match sli.avg_up_time with
  | RawSample.val u => decide (|u| ≤ 1)
  | RawSample.err => true

theorem ratioValue_of_gt_false (sli : SliInput)
    (hg : pyGt (rawToPy sli.avg_total_request) (PyFloat.num 0) = false) :
    ratioValue sli = PyFloat.num 0 := by
  simp [ratioValue, pyNe_nan_right, hg, pyMul, pyRound3, pyAbs, round3_zero]

theorem ratioValue_pos_total (sli : SliInput) (t s : ℚ)
    (htot : sli.avg_total_request = RawSample.val t)
    (hsucc : sli.avg_successfull_request = RawSample.val s)
    (ht : 0 < t) :
    ratioValue sli = PyFloat.num |round3 (s / t * 100)| := by
  have hne : t ≠ 0 := ne_of_gt ht
  simp [ratioValue, pyNe_nan_right, htot, hsucc, rawToPy, pyGt, ht, pyDiv, hne, pyMul,
    pyRound3, pyAbs]

theorem ratioValue_err_numerator (sli : SliInput) (t : ℚ)
    (htot : sli.avg_total_request = RawSample.val t)
    (hsucc : sli.avg_successfull_request = RawSample.err)
    (ht : 0 < t) :
    ratioValue sli = PyFloat.nan := by
  simp [ratioValue, pyNe_nan_right, htot, hsucc, rawToPy, pyGt, ht, pyDiv, pyMul,
    pyRound3, pyAbs]

theorem uptimeValue_val (sli : SliInput) (u : ℚ)
    (hu : sli.avg_up_time = RawSample.val u) :
    uptimeValue sli = PyFloat.num |round3 (u * 100)| := by
  simp [uptimeValue, hu, pyMul, pyRound3, pyAbs]

theorem ratioValue_nonneg (sli : SliInput) (v : ℚ)
    (hv : ratioValue sli = PyFloat.num v) : 0 ≤ v := by
  cases htot : sli.avg_total_request with
  | err =>
    rw [ratioValue_of_gt_false sli (by rw [htot]; simp [rawToPy, pyGt])] at hv
    injection hv with h
    rw [← h]
  | val t =>
    by_cases ht : 0 < t
    · cases hsucc : sli.avg_successfull_request with
      | err => rw [ratioValue_err_numerator sli t htot hsucc ht] at hv; cases hv
      | val s =>
        rw [ratioValue_pos_total sli t s htot hsucc ht] at hv
        injection hv with h
        rw [← h]
        exact abs_nonneg _
    · rw [ratioValue_of_gt_false sli (by rw [htot]; simp [rawToPy, pyGt, ht])] at hv
      injection hv with h
      rw [← h]

theorem ratioValue_le_100 (sli : SliInput) (hok : ratioInputOk sli = true) (v : ℚ)
    (hv : ratioValue sli = PyFloat.num v) : v ≤ 100 := by
  cases htot : sli.avg_total_request with
  | err =>
    rw [ratioValue_of_gt_false sli (by rw [htot]; simp [rawToPy, pyGt])] at hv
    injection hv with h
    rw [← h]
    norm_num
  | val t =>
    by_cases ht : 0 < t
    · cases hsucc : sli.avg_successfull_request with
      | err => rw [ratioValue_err_numerator sli t htot hsucc ht] at hv; cases hv
      | val s =>
        rw [ratioValue_pos_total sli t s htot hsucc ht] at hv
        injection hv with h
        rw [← h]
        simp only [ratioInputOk, htot, hsucc, decide_eq_true_eq] at hok
        have hst : |s| ≤ t := hok ht
        have habs : |s / t * 100| ≤ 100 := by
          rw [abs_mul, abs_div, abs_of_pos ht, show |(100:ℚ)| = 100 by norm_num]
          have hd : |s| / t ≤ 1 := (div_le_one ht).mpr hst
          linarith
        exact round3_abs_le_100 _ habs
    · rw [ratioValue_of_gt_false sli (by rw [htot]; simp [rawToPy, pyGt, ht])] at hv
      injection hv with h
      rw [← h]
      norm_num

theorem uptimeValue_nonneg (sli : SliInput) (v : ℚ)
    (hv : uptimeValue sli = PyFloat.num v) : 0 ≤ v := by
  cases hu : sli.avg_up_time with
  | err => simp [uptimeValue, hu] at hv
  | val u =>
    rw [uptimeValue_val sli u hu] at hv
    injection hv with h
    rw [← h]
    exact abs_nonneg _

theorem uptimeValue_le_100 (sli : SliInput) (hok : uptimeInputOk sli = true) (v : ℚ)
    (hv : uptimeValue sli = PyFloat.num v) : v ≤ 100 := by
  cases hu : sli.avg_up_time with
  | err => simp [uptimeValue, hu] at hv
  | val u =>
    rw [uptimeValue_val sli u hu] at hv
    injection hv with h
    rw [← h]
    simp only [uptimeInputOk, hu, decide_eq_true_eq] at hok
    have habs : |u * 100| ≤ 100 := by
      rw [abs_mul, show |(100:ℚ)| = 100 by norm_num]
      linarith
    exact round3_abs_le_100 _ habs

/-- C7 (amended): every defined derived value is non-negative (it is an
absolute magnitude); and it does not exceed 100 under the input
conditions that a numeric success sample never exceeds a positive
numeric total sample in magnitude and a numeric up-time sample has
magnitude at most 1.  Without those conditions the 0-100 bound fails. -/
theorem user_api_percentage_bounds (sli : SliInput) :
    (∀ p ∈ evaluate_sli sli, ∀ v : ℚ, p.2.value = PyFloat.num v → 0 ≤ v) ∧
    (ratioInputOk sli = true → uptimeInputOk sli = true →
      ∀ p ∈ evaluate_sli sli, ∀ v : ℚ, p.2.value = PyFloat.num v → v ≤ 100) := by
  constructor
  · intro p hp v hv
    simp only [evaluate_sli, List.mem_cons, List.not_mem_nil, or_false] at hp
    rcases hp with rfl | rfl
    · exact ratioValue_nonneg sli v hv
    · exact uptimeValue_nonneg sli v hv
  · intro h1 h2 p hp v hv
    simp only [evaluate_sli, List.mem_cons, List.not_mem_nil, or_false] at hp
    rcases hp with rfl | rfl
    · exact ratioValue_le_100 sli h1 v hv
    · exact uptimeValue_le_100 sli h2 v hv

/-- C7 (counterexample): at the concrete input where the success sample
exceeds the total sample, the derived percentage evaluates to 200, which
exceeds 100 — the claimed universal 0-100 bound is false. -/
theorem evaluate_percentage_exceeds_100 :
    ratioValue ⟨RawSample.val 1, RawSample.val 2, RawSample.val 1⟩ = PyFloat.num 200 ∧
      ¬ ((200:ℚ) ≤ 100) := by
  constructor
  · have h1 : round3 (200:ℚ) = 200 := by exact_mod_cast round3_intCast 200
    simp [ratioValue, rawToPy, pyNe, pyGt, pyDiv, pyMul, pyRound3, pyAbs]
    norm_num [h1]
  · norm_num

def wSli : SliInput := ⟨RawSample.val 100, RawSample.val 95, RawSample.val 1⟩

theorem user_api_percentage_bounds_witness :
    (0:ℚ) ≤ 95 ∧ (95:ℚ) ≤ 100 := by
  have hval : ratioValue wSli = PyFloat.num 95 := by
    have h1 : round3 (95:ℚ) = 95 := by exact_mod_cast round3_intCast 95
    simp [wSli, ratioValue, rawToPy, pyNe, pyGt, pyDiv, pyMul, pyRound3, pyAbs]
    norm_num [h1]
  constructor
  · exact (user_api_percentage_bounds wSli).1
      ("avg_percentage_successfull_request",
        { value := ratioValue wSli
          name := "Successfull requests User-API (avg)"
          measurement_unit := "%" })
      (by simp [evaluate_sli]) 95 hval
  · exact (user_api_percentage_bounds wSli).2
      (by simp [wSli, ratioInputOk]; norm_num [abs_le])
      (by simp [wSli, uptimeInputOk, abs_le])
      ("avg_percentage_successfull_request",
        { value := ratioValue wSli
          name := "Successfull requests User-API (avg)"
          measurement_unit := "%" })
      (by simp [evaluate_sli]) 95 hval
